import Mathlib

/-!
Shallow embedding of the core logic of `src/app.py` (a Streamlit-based
vacation planner): calendar generation (`VacationEngine.get_initial_data`),
the every-other-Friday lockout overlay (`block_fridays`), the month-scoped
edit merge with flag normalization (`_apply_month_edits`), the budget
aggregation (`full_mask`/`half_mask`), the Drive payload envelope and its
legacy migration (`_extract_drive_payload`), and the scenario store
(`create_new_scenario`, `_sync_df_to_scenarios`).

Dates are embedded as explicit (year, month, day) triples with weekday and
ISO-week arithmetic matching Python's `datetime.date.weekday()` and
`datetime.date.isocalendar()[1]`.
-/

/-- A calendar date (year, month, day), mirroring Python's `datetime.date`. -/
structure Ymd where
  y : Nat
  m : Nat
  d : Nat
deriving DecidableEq, Repr

/-- Day count since 0000-03-01 (the standard civil-from-days scheme).
Used to derive the weekday and the ISO week exactly as `datetime` does. -/
def Ymd.toG (date : Ymd) : Nat :=
  let yy := if date.m ≤ 2 then date.y - 1 else date.y
  let era := yy / 400
  let yoe := yy % 400
  let mp := if date.m ≤ 2 then date.m + 9 else date.m - 3
  let doy := (153 * mp + 2) / 5 + date.d - 1
  let doe := yoe * 365 + yoe / 4 - yoe / 100 + doy
  era * 146097 + doe

/-- Python `date.weekday()`: Monday = 0, ..., Saturday = 5, Sunday = 6. -/
def Ymd.weekday (date : Ymd) : Nat :=
  (date.toG + 2) % 7

/-- Python `date.isocalendar()[1]`: the ISO 8601 week number, i.e. the
week-of-year of the Thursday of the date's Monday-based week. -/
def Ymd.isoWeek (date : Ymd) : Nat :=
  let g := date.toG
  let th := g - (g + 2) % 7 + 3
  let thYear :=
    if Ymd.toG ⟨date.y + 1, 1, 1⟩ ≤ th then date.y + 1
    else if th < Ymd.toG ⟨date.y, 1, 1⟩ then date.y - 1
    else date.y
  (th - Ymd.toG ⟨thYear, 1, 1⟩) / 7 + 1

/-- Gregorian leap-year rule. -/
def isLeap (y : Nat) : Bool :=
  y % 4 == 0 && (y % 100 != 0 || y % 400 == 0)

/-- Number of days in the given month. -/
def daysInMonth (y m : Nat) : Nat :=
  if m = 2 then (if isLeap y then 29 else 28)
  else if m = 4 ∨ m = 6 ∨ m = 9 ∨ m = 11 then 30
  else 31

/-- The calendar date following `date`. -/
def Ymd.next (date : Ymd) : Ymd :=
  if date.d < daysInMonth date.y date.m then ⟨date.y, date.m, date.d + 1⟩
  else if date.m < 12 then ⟨date.y, date.m + 1, 1⟩
  else ⟨date.y + 1, 1, 1⟩

/-- `n` consecutive calendar dates starting at `start`
(the model of `pd.date_range(start=..., end=...)`). -/
def dateRange : Ymd → Nat → List Ymd
  | _, 0 => []
  | d, n + 1 => d :: dateRange d.next n

/-- `START_DATE = datetime.date(2026, 1, 1)` in `src/app.py`. -/
def START_DATE : Ymd := ⟨2026, 1, 1⟩

/-- `END_DATE = datetime.date(2027, 10, 15)` in `src/app.py`. -/
def END_DATE : Ymd := ⟨2027, 10, 15⟩

/-- `TOTAL_BUDGET = 108` in `src/app.py`. -/
def TOTAL_BUDGET : Nat := 108

/-- Number of days in the inclusive range `[START_DATE, END_DATE]`. -/
def NUM_DAYS : Nat := END_DATE.toG + 1 - START_DATE.toG

/-- One day record, mirroring one row of the scenario DataFrame:
columns `Datum`, `Vecka`, `Typ`, `Beskrivning`, `Semester`, `Halvdag`,
`ExtraLedig`, `Sjuk`. -/
structure DayRecord where
  datum : Ymd
  vecka : Nat
  typ : String
  beskrivning : String
  semester : Bool
  halvdag : Bool
  extraLedig : Bool
  sjuk : Bool
deriving DecidableEq, Repr

/-- The public-holiday table (`engine.se_holidays`): a mapping from date to
holiday name, supplied as input (the source fills it from the `holidays`
library for SE 2026-2027). -/
def HolidayTable : Type := List (Ymd × String)

/-- `VacationEngine.is_holiday`: `date_obj in self.se_holidays or
date_obj.weekday() >= 5`. -/
def is_holiday (se_holidays : HolidayTable) (date : Ymd) : Bool :=
  (List.lookup date se_holidays).isSome || decide (5 ≤ date.weekday)

/-- `VacationEngine.get_initial_data`: one record per date in the range,
classified `"Ledig (Helg/Röd)"` (= RestrictedHoliday) when the date is a
public holiday or weekend and `"Arbetsdag"` (= Workday) otherwise, with the
holiday name as `Beskrivning` on exact table matches and all mark flags
initialized to `False`. -/
def get_initial_data (se_holidays : HolidayTable) : List DayRecord :=
  (dateRange START_DATE NUM_DAYS).map fun d =>
    { datum := d
      vecka := d.isoWeek
      typ := if is_holiday se_holidays d then "Ledig (Helg/Röd)" else "Arbetsdag"
      beskrivning :=
        if is_holiday se_holidays d then (List.lookup d se_holidays).getD "" else ""
      semester := false
      halvdag := false
      extraLedig := false
      sjuk := false }

/-- The periodic-lockout overlay (`block_fridays`, src/app.py lines 851-853):
when enabled it assigns `df.loc[mask, "Typ"] = "Spärrad (Jobb)"` for every
record whose date is a Friday in an even ISO week, writing into the single
stored `Typ` column of the session DataFrame (there is no separate base-type
field); when disabled it leaves the DataFrame untouched. -/
def overlayStep (block_fridays : Bool) (df : List DayRecord) : List DayRecord :=
  if block_fridays then
    df.map fun r =>
      if r.datum.weekday == 4 && r.datum.isoWeek % 2 == 0 then
        { r with typ := "Spärrad (Jobb)" }
      else r
  else df

/-- Per-record flag normalization inside `_apply_month_edits`
(src/app.py lines 835-840), applied to every row of the edited month slice.
The six masked column assignments are row-independent, so they embed as a
sequential per-record update in the same order:
`ExtraLedig → Semester=False`, `Sjuk → Semester=False`,
`Halvdag → Semester=False`, `Halvdag → ExtraLedig=False`,
`Halvdag → Sjuk=False`, `Semester → Halvdag=False`. -/
def normalizeFlags (r : DayRecord) : DayRecord :=
  let r1 := if r.extraLedig then { r with semester := false } else r
  let r2 := if r1.sjuk then { r1 with semester := false } else r1
  let r3 := if r2.halvdag then { r2 with semester := false } else r2
  let r4 := if r3.halvdag then { r3 with extraLedig := false } else r3
  let r5 := if r4.halvdag then { r4 with sjuk := false } else r4
  if r5.semester then { r5 with halvdag := false } else r5

/-- One entry of the data editor's `edited_rows`: the subset of cells the
user changed in one row (each field is `none` when that column was not
edited). -/
structure RowChanges where
  datum : Option Ymd := none
  vecka : Option Nat := none
  typ : Option String := none
  beskrivning : Option String := none
  semester : Option Bool := none
  halvdag : Option Bool := none
  extraLedig : Option Bool := none
  sjuk : Option Bool := none
deriving DecidableEq, Repr

/-- Apply one `edited_rows` entry to a record
(`month_df.at[int(row_idx), col] = val` for each changed column). -/
def applyChanges (r : DayRecord) (c : RowChanges) : DayRecord :=
  { datum := c.datum.getD r.datum
    vecka := c.vecka.getD r.vecka
    typ := c.typ.getD r.typ
    beskrivning := c.beskrivning.getD r.beskrivning
    semester := c.semester.getD r.semester
    halvdag := c.halvdag.getD r.halvdag
    extraLedig := c.extraLedig.getD r.extraLedig
    sjuk := c.sjuk.getD r.sjuk }

/-- Replace the element at position `i` by `f` of it (no-op out of range). -/
def modifyAt (f : DayRecord → DayRecord) : Nat → List DayRecord → List DayRecord
  | _, [] => []
  | 0, r :: rest => f r :: rest
  | i + 1, r :: rest => r :: modifyAt f i rest

/-- Apply all `edited_rows` entries in order. Row indices past the end of
the slice (which the data editor never produces, since its `edited_rows`
keys index the rows it displays) are modelled as no-ops. -/
def applyEditedRows (l : List DayRecord) (edits : List (Nat × RowChanges)) :
    List DayRecord :=
  edits.foldl (fun acc p => modifyAt (fun r => applyChanges r p.2) p.1 acc) l

/-- `month_df.drop(index=deleted_rows)`: removes the rows at the listed
positions; like pandas `drop` it raises (modelled as `none`) when a listed
index does not exist. -/
def dropRows (l : List DayRecord) (deleted : List Nat) : Option (List DayRecord) :=
  if deleted.all (fun i => i < l.length) then
    some (((l.enum.filter fun p => !(deleted.contains p.1)).map Prod.snd))
  else none

/-- The value Streamlit stores for the data editor
(`st.session_state.get(editor_key)`): either the edit-state dict with
`edited_rows` / `added_rows` / `deleted_rows`, a plain DataFrame, or
anything else (including `None`), which `_apply_month_edits` ignores. -/
inductive EditorState where
  | editorDict (edited_rows : List (Nat × RowChanges))
      (added_rows : List DayRecord) (deleted_rows : List Nat)
  | dataFrame (rows : List DayRecord)
  | other
deriving Repr

/-- First stage of `_apply_month_edits`: build the edited month DataFrame
from the editor state. Result `none` models a raised exception,
`some none` models the early `return` paths (no mutation), and
`some (some rows)` the edited slice to be normalized and written back.
Added rows are modelled as complete records (pandas would fill missing
columns with NaN; every such batch still changes the row count, which is
all the downstream code observes). -/
def buildMonthDf (ed : EditorState) (month_df : List DayRecord) :
    Option (Option (List DayRecord)) :=
  match ed with
  | .editorDict edited_rows added_rows deleted_rows =>
    let m1 := applyEditedRows month_df edited_rows
    let m2 := m1 ++ added_rows
    match dropRows m2 deleted_rows with
    | some m3 => some (some m3)
    | none => none
  | .dataFrame rows => if rows.isEmpty then some none else some (some rows)
  | .other => some none

/-- Whether a record's date falls in the target `(year, month)`
(`d.year == year and d.month == month`). -/
def inMonth (year month : Nat) (r : DayRecord) : Bool :=
  r.datum.y == year && r.datum.m == month

/-- The per-row write-back of `updated.loc[mask, [...]] = month_df[[...]].values`:
rows at masked positions take `Semester`, `ExtraLedig`, `Sjuk`,
`Beskrivning` and `Halvdag` positionally from the edited slice; `Datum`,
`Vecka` and `Typ` of the stored row are kept. -/
def mergeFields (r v : DayRecord) : DayRecord :=
  { r with
    semester := v.semester
    extraLedig := v.extraLedig
    sjuk := v.sjuk
    beskrivning := v.beskrivning
    halvdag := v.halvdag }

/-- Positional write-back at masked positions. The `[]` case is unreachable
under the length guard of `writeBack`. -/
def writeBackGo (p : DayRecord → Bool) : List DayRecord → List DayRecord → List DayRecord
  | [], _ => []
  | r :: rest, vals =>
    if p r then
      match vals with
      | v :: vs => mergeFields r v :: writeBackGo p rest vs
      | [] => r :: writeBackGo p rest []
    else r :: writeBackGo p rest vals

/-- `updated.loc[mask, cols] = month_df[cols].values`: pandas validates the
shape first and raises on a length mismatch (modelled as `none`), leaving
the scenario unmodified; otherwise the masked rows are overwritten
positionally. -/
def writeBack (df : List DayRecord) (p : DayRecord → Bool)
    (vals : List DayRecord) : Option (List DayRecord) :=
  if (df.filter p).length = vals.length then some (writeBackGo p df vals) else none

/-- `_apply_month_edits` (src/app.py lines 805-845) on one scenario's full
day sequence: select the `(year, month)` slice, apply the editor's edits,
normalize the mark flags, and write the slice back at the masked positions.
`none` models a raised pandas exception (the session state is then left
unchanged, since `_sync_df_to_scenarios` is only reached on success);
`some df` with the input unchanged models the early `return` paths. -/
def applyMonthEdits (df : List DayRecord) (year month : Nat) (ed : EditorState) :
    Option (List DayRecord) :=
  let mask := inMonth year month
  match buildMonthDf ed (df.filter mask) with
  | none => none
  | some none => some df
  | some (some mdf) => writeBack df mask (mdf.map normalizeFlags)

/-- `full_mask` of the budget computation (src/app.py line 1067):
`(df["Semester"] == True) & (df["Typ"].isin(["Arbetsdag", "Spärrad (Jobb)"]))`. -/
def full_mask (r : DayRecord) : Bool :=
  r.semester && (r.typ == "Arbetsdag" || r.typ == "Spärrad (Jobb)")

/-- `half_mask` of the budget computation (src/app.py line 1068). -/
def half_mask (r : DayRecord) : Bool :=
  r.halvdag && (r.typ == "Arbetsdag" || r.typ == "Spärrad (Jobb)")

/-- `count = float(full_mask.sum()) + 0.5 * float(half_mask.sum())`
(src/app.py line 1069), over the DataFrame the statistics read (i.e. after
the overlay step has run on it). -/
def budgetCount (df : List DayRecord) : ℚ :=
  (df.countP full_mask : ℚ) + (1 / 2) * (df.countP half_mask : ℚ)

/-- `rem = float(budget_days) - count` (src/app.py line 1070). -/
def budgetRemaining (df : List DayRecord) (budget_days : ℚ) : ℚ :=
  budget_days - budgetCount df

/-- The spec's effective day-kind vocabulary. -/
inductive EffKind where
  | workday
  | restrictedWork
  | restrictedHoliday
deriving DecidableEq, Repr

/-- The effective kind a record's stored `Typ` string denotes. -/
def effKindOfTyp (t : String) : Option EffKind :=
  if t = "Arbetsdag" then some .workday
  else if t = "Spärrad (Jobb)" then some .restrictedWork
  else if t = "Ledig (Helg/Röd)" then some .restrictedHoliday
  else none

/-- Spec-side: `vacation=true` and effective kind in {Workday, RestrictedWork}. -/
def spec_full_mask (r : DayRecord) : Bool :=
  r.semester &&
    (effKindOfTyp r.typ == some .workday || effKindOfTyp r.typ == some .restrictedWork)

/-- Spec-side: `halfDay=true` and effective kind in {Workday, RestrictedWork}. -/
def spec_half_mask (r : DayRecord) : Bool :=
  r.halvdag &&
    (effKindOfTyp r.typ == some .workday || effKindOfTyp r.typ == some .restrictedWork)

/-- Spec-side consumed-budget formula (§4.4), written from the spec's words:
`count(days where vacation=true and effective-kind ∈ {Workday, RestrictedWork})
 + 0.5 × count(days where halfDay=true and effective-kind ∈ {Workday, RestrictedWork})`. -/
def specConsumed (df : List DayRecord) : ℚ :=
  (df.countP spec_full_mask : ℚ) + (1 / 2) * (df.countP spec_half_mask : ℚ)

/-- A JSON-like value, the shape of the Drive blob. Numeric values are
modelled as integers (every `budget_days` the app writes is produced by
`int(...)`). -/
inductive JVal where
  | null
  | bool (b : Bool)
  | num (n : Int)
  | str (s : String)
  | arr (xs : List JVal)
  | obj (fs : List (String × JVal))

/-- Python truthiness of a JSON value. -/
def pyTruthy : JVal → Bool
  | .null => false
  | .bool b => b
  | .num n => n != 0
  | .str s => !s.isEmpty
  | .arr xs => !xs.isEmpty
  | .obj fs => !fs.isEmpty

/-- Python `a or b`. -/
def pyOr (a b : JVal) : JVal :=
  if pyTruthy a then a else b

/-- Python `int(v)`: succeeds on numbers, booleans and integer-shaped
strings (modelled via `String.toInt?`), raises otherwise. -/
def pyInt : JVal → Option Int
  | .num n => some n
  | .bool b => some (if b then 1 else 0)
  | .str s => s.toInt?
  | _ => none

/-- `"scenarios" in drive_data`. -/
def containsKey (fs : List (String × JVal)) (k : String) : Bool :=
  fs.any fun p => p.1 == k

/-- `_extract_drive_payload` (src/app.py lines 470-483): returns
`(scenarios, budget_days)`. A non-dict blob yields `({}, TOTAL_BUDGET)`;
a dict with a `scenarios` key reads `scenarios` and
`settings.budget_days` (falsy values replaced by `{}` via Python `or`,
`settings.get` raising — modelled as `none` — when `settings` is a truthy
non-dict, and `int(...)` raising on non-numeric values); any other dict is
the legacy flat shape and is returned whole with the default budget. -/
def extract_drive_payload (drive_data : JVal) : Option (JVal × Int) :=
  match drive_data with
  | .obj fs =>
    if containsKey fs "scenarios" then
      let scenarios := pyOr ((List.lookup "scenarios" fs).getD .null) (.obj [])
      let settings := pyOr ((List.lookup "settings" fs).getD .null) (.obj [])
      match settings with
      | .obj sfs =>
        match pyInt ((List.lookup "budget_days" sfs).getD (.num TOTAL_BUDGET)) with
        | some b => some (scenarios, b)
        | none => none
      | _ => none
    else some (.obj fs, TOTAL_BUDGET)
  | _ => some (.obj [], TOTAL_BUDGET)

/-- The in-memory multi-scenario session state:
`st.session_state["scenarios"]` (a name-keyed mapping to record lists,
modelled as an association list with unique keys) plus
`st.session_state["current_scenario"]`. -/
structure Store where
  scenarios : List (String × List DayRecord)
  current_scenario : String
deriving DecidableEq, Repr

/-- Python dict assignment `scenarios[name] = recs`: replace the value at
an existing key, or append a new entry. -/
def setScenario : List (String × List DayRecord) → String → List DayRecord →
    List (String × List DayRecord)
  | [], name, recs => [(name, recs)]
  | (k, v) :: rest, name, recs =>
    if k = name then (k, recs) :: rest else (k, v) :: setScenario rest name recs

/-- `create_new_scenario` (src/app.py lines 603-606):
`scenarios[name] = [row.copy() for row in current_data]` followed by
`current_scenario = name`. The per-row `row.copy()` copies each record
dict (whose values are all scalars), which in this value-semantics
embedding is the identity on each record; `none` models the `KeyError`
when the current scenario is missing. -/
def create_new_scenario (name : String) (s : Store) : Option Store :=
  match List.lookup s.current_scenario s.scenarios with
  | some current_data =>
    some { scenarios := setScenario s.scenarios name (current_data.map fun row => row)
           current_scenario := name }
  | none => none

/-- `_apply_month_edits` at the store level: read the current scenario's
records (the `data_store` entry mirrors them), merge the month edits, and
on success write the result back into the current scenario's slot
(`_sync_df_to_scenarios`). -/
def storeApplyMonthEdits (s : Store) (year month : Nat) (ed : EditorState) :
    Option Store :=
  match List.lookup s.current_scenario s.scenarios with
  | some df =>
    match applyMonthEdits df year month ed with
    | some df2 =>
      some { s with scenarios := setScenario s.scenarios s.current_scenario df2 }
    | none => none
  | none => none

/-- The C1 flag invariant: at most one of `Semester`/`Halvdag` is set, and
if either is set then `ExtraLedig` and `Sjuk` are clear. -/
def flagInvariant (r : DayRecord) : Prop :=
  ¬(r.semester = true ∧ r.halvdag = true) ∧
    ((r.semester = true ∨ r.halvdag = true) → r.extraLedig = false ∧ r.sjuk = false)

instance (r : DayRecord) : Decidable (flagInvariant r) := by
  unfold flagInvariant
  infer_instance

/-- 2026-04-03, Good Friday (Långfredagen): a public holiday that falls on
a Friday in the even ISO week 14. -/
def langfredagen2026 : DayRecord :=
  ⟨⟨2026, 4, 3⟩, 14, "Ledig (Helg/Röd)", "Långfredagen", false, false, false, false⟩

/-- 2026-12-25, Christmas Day (Juldagen): a public holiday on a Friday in
the even ISO week 52. -/
def juldagen2026 : DayRecord :=
  ⟨⟨2026, 12, 25⟩, 52, "Ledig (Helg/Röd)", "Juldagen", false, false, false, false⟩

/-- 2026-01-01, New Year's Day (Nyårsdagen), as `get_initial_data`
generates it from a holiday table containing that entry. -/
def nyarsdagen2026 : DayRecord :=
  ⟨⟨2026, 1, 1⟩, 1, "Ledig (Helg/Röd)", "Nyårsdagen", false, false, false, false⟩

/-- A sample public-holiday table with three named 2026 holidays. -/
def seHolidays2026 : HolidayTable :=
  [(⟨2026, 1, 1⟩, "Nyårsdagen"), (⟨2026, 4, 3⟩, "Långfredagen"),
    (⟨2026, 12, 25⟩, "Juldagen")]

/-- The holiday table of the spec's §8 calendar scenario. -/
def nyarsTable : HolidayTable := [(⟨2026, 1, 1⟩, "Nyårsdagen")]

/-- A workday record with a full vacation mark (2026-01-02). -/
def janSemesterDag : DayRecord :=
  ⟨⟨2026, 1, 2⟩, 1, "Arbetsdag", "", true, false, false, false⟩

/-- A plain February workday record. -/
def febArbetsdag : DayRecord :=
  ⟨⟨2026, 2, 5⟩, 6, "Arbetsdag", "", false, false, false, false⟩

/-- An edited row dated 2026-02-05 (outside January) with a vacation mark. -/
def febSemesterEdit : DayRecord :=
  ⟨⟨2026, 2, 5⟩, 6, "Arbetsdag", "", true, false, false, false⟩

/-- A workday record on Friday 2026-01-09 (even ISO week 2). -/
def fredag9Jan : DayRecord :=
  ⟨⟨2026, 1, 9⟩, 2, "Arbetsdag", "", false, false, false, false⟩

/-- A Saturday record (2026-01-03). -/
def lordag3Jan : DayRecord :=
  ⟨⟨2026, 1, 3⟩, 1, "Ledig (Helg/Röd)", "", false, false, false, false⟩

/-- The spec's §8 budget scenario: one full-vacation workday, two half-day
workdays, one weekend day and one unmarked workday. -/
def budgetExampleDf : List DayRecord :=
  [⟨⟨2026, 5, 4⟩, 19, "Arbetsdag", "", true, false, false, false⟩,
    ⟨⟨2026, 5, 5⟩, 19, "Arbetsdag", "", false, true, false, false⟩,
    ⟨⟨2026, 5, 6⟩, 19, "Arbetsdag", "", false, true, false, false⟩,
    ⟨⟨2026, 5, 9⟩, 19, "Ledig (Helg/Röd)", "", false, false, false, false⟩,
    ⟨⟨2026, 5, 7⟩, 19, "Arbetsdag", "", false, false, false, false⟩]

/-- A plain, unmarked January workday record (2026-01-02). -/
def janArbetsdag : DayRecord :=
  ⟨⟨2026, 1, 2⟩, 1, "Arbetsdag", "", false, false, false, false⟩

/-- A one-scenario store holding a single marked January workday. -/
def storeUtkast : Store := ⟨[("Utkast 1", [janSemesterDag])], "Utkast 1"⟩

theorem normalizeFlags_flagInvariant (r : DayRecord) :
    flagInvariant (normalizeFlags r) := by
  rcases r with ⟨d, w, t, b, se, ha, ex, sj⟩
  cases se <;> cases ha <;> cases ex <;> cases sj <;>
    simp [normalizeFlags, flagInvariant]

theorem mergeFields_flagInvariant (r v : DayRecord) (h : flagInvariant v) :
    flagInvariant (mergeFields r v) := by
  simpa [mergeFields, flagInvariant] using h

theorem writeBackGo_flagInvariant (p : DayRecord → Bool) :
    ∀ (df vals : List DayRecord), (∀ r ∈ df, flagInvariant r) →
      (∀ v ∈ vals, flagInvariant v) → ∀ x ∈ writeBackGo p df vals, flagInvariant x := by
  intro df
  induction df with
  | nil => intro vals _ _ x hx; simp [writeBackGo] at hx
  | cons r rest ih =>
    intro vals hdf hv x hx
    by_cases hp : p r
    · cases vals with
      | nil =>
        simp [writeBackGo, hp] at hx
        rcases hx with hx | hx
        · subst hx; exact hdf _ (by simp)
        · exact ih [] (fun a ha => hdf a (by simp [ha])) (by simp) x hx
      | cons v vs =>
        simp [writeBackGo, hp] at hx
        rcases hx with hx | hx
        · subst hx; exact mergeFields_flagInvariant _ _ (hv v (by simp))
        · exact ih vs (fun a ha => hdf a (by simp [ha]))
            (fun a ha => hv a (by simp [ha])) x hx
    · simp [writeBackGo, hp] at hx
      rcases hx with hx | hx
      · subst hx; exact hdf _ (by simp)
      · exact ih vals (fun a ha => hdf a (by simp [ha])) hv x hx

/-- C1: the flag invariant — at most one of `vacation`/`halfDay` set, and
either of them set forces `extraLeave` and `sick` clear — holds for every
day record of the scenario produced by any successful `_apply_month_edits`
call (it is an invariant: records the merge did not touch keep it from the
pre-state, and every record the merge wrote back has been normalized). -/
theorem applyMonthEdits_flagInvariant (df : List DayRecord) (year month : Nat)
    (ed : EditorState) (df2 : List DayRecord)
    (hpre : ∀ r ∈ df, flagInvariant r)
    (h : applyMonthEdits df year month ed = some df2) :
    ∀ r ∈ df2, flagInvariant r := by
  simp only [applyMonthEdits] at h
  cases hbd : buildMonthDf ed (df.filter (inMonth year month)) with
  | none => rw [hbd] at h; exact absurd h (by simp)
  | some o =>
    cases o with
    | none =>
      rw [hbd] at h
      simp only [Option.some.injEq] at h
      subst h; exact hpre
    | some mdf =>
      rw [hbd] at h
      simp only [writeBack] at h
      split at h
      · simp only [Option.some.injEq] at h
        subst h
        refine writeBackGo_flagInvariant _ df _ hpre ?_
        intro v hv
        rcases List.mem_map.1 hv with ⟨a, _, rfl⟩
        exact normalizeFlags_flagInvariant a
      · exact absurd h (by simp)

/-- C1 witness: marking 2026-01-02 sick while it carries a vacation mark
yields a record satisfying the flag invariant. -/
theorem applyMonthEdits_flagInvariant_witness :
    flagInvariant ⟨⟨2026, 1, 2⟩, 1, "Arbetsdag", "", false, false, false, true⟩ :=
  applyMonthEdits_flagInvariant [janSemesterDag] 2026 1
    (.editorDict [(0, { sjuk := some true })] [] [])
    [⟨⟨2026, 1, 2⟩, 1, "Arbetsdag", "", false, false, false, true⟩]
    (by decide) (by decide) _ (by decide)

theorem writeBackGo_length (p : DayRecord → Bool) :
    ∀ (df vals : List DayRecord), (writeBackGo p df vals).length = df.length := by
  intro df
  induction df with
  | nil => intro vals; simp [writeBackGo]
  | cons r rest ih =>
    intro vals
    by_cases hp : p r
    · cases vals with
      | nil => simp [writeBackGo, hp, ih]
      | cons v vs => simp [writeBackGo, hp, ih]
    · simp [writeBackGo, hp, ih]

theorem writeBackGo_getElem_of_mask_false (p : DayRecord → Bool) :
    ∀ (df vals : List DayRecord) (i : Nat) (hi : i < df.length),
      p df[i] = false → (writeBackGo p df vals)[i]? = some df[i] := by
  intro df
  induction df with
  | nil => intro vals i hi; simp at hi
  | cons r rest ih =>
    intro vals i hi hpi
    cases i with
    | zero =>
      simp at hpi
      simp [writeBackGo, hpi]
    | succ j =>
      have hj : j < rest.length := by simpa using hi
      have hrec : p rest[j] = false := by simpa using hpi
      by_cases hp : p r
      · cases vals with
        | nil =>
          simp only [writeBackGo, hp, if_true]
          simpa using ih [] j hj hrec
        | cons v vs =>
          simp only [writeBackGo, hp, if_true]
          simpa using ih vs j hj hrec
      · simp only [writeBackGo, hp, if_false]
        simpa using ih vals j hj hrec

/-- C5: a successful `_apply_month_edits` call preserves the number of day
records and leaves every record whose date falls outside the target
`(year, month)` completely unchanged (only the masked positions are
written back). -/
theorem applyMonthEdits_frame (df : List DayRecord) (year month : Nat)
    (ed : EditorState) (df2 : List DayRecord)
    (h : applyMonthEdits df year month ed = some df2) :
    df2.length = df.length ∧
      ∀ i (hi : i < df.length), inMonth year month df[i] = false →
        df2[i]? = some df[i] := by
  simp only [applyMonthEdits] at h
  cases hbd : buildMonthDf ed (df.filter (inMonth year month)) with
  | none => rw [hbd] at h; exact absurd h (by simp)
  | some o =>
    cases o with
    | none =>
      rw [hbd] at h
      simp only [Option.some.injEq] at h
      subst h
      exact ⟨rfl, fun i hi _ => List.getElem?_eq_getElem hi⟩
    | some mdf =>
      rw [hbd] at h
      simp only [writeBack] at h
      split at h
      · simp only [Option.some.injEq] at h
        subst h
        exact ⟨writeBackGo_length _ df _,
          fun i hi hm => writeBackGo_getElem_of_mask_false _ df _ i hi hm⟩
      · exact absurd h (by simp)

/-- C5 witness: editing January 2026 leaves the February record untouched. -/
theorem applyMonthEdits_frame_witness :
    ([⟨⟨2026, 1, 2⟩, 1, "Arbetsdag", "", false, false, false, true⟩,
        febArbetsdag] : List DayRecord)[1]? = some febArbetsdag := by
  have h := (applyMonthEdits_frame [janSemesterDag, febArbetsdag] 2026 1
    (.editorDict [(0, { sjuk := some true })] [] [])
    [⟨⟨2026, 1, 2⟩, 1, "Arbetsdag", "", false, false, false, true⟩, febArbetsdag]
    (by decide)).2 1 (by decide) (by decide)
  exact h.trans (by decide)

/-- C6 counterexample: the claim says `applyMonthEdits` fails with
`InvalidRange` whenever an edited date falls outside the target month.
Merging an edited batch dated 2026-02-05 into January 2026 instead
succeeds: the edited row is written back positionally onto the January
record (its date ignored), and the scenario is mutated. -/
theorem applyMonthEdits_no_date_validation_counterexample :
    applyMonthEdits [janArbetsdag] 2026 1 (.dataFrame [febSemesterEdit]) =
        some [janSemesterDag] ∧
      applyMonthEdits [janArbetsdag] 2026 1 (.dataFrame [febSemesterEdit]) ≠ none ∧
      ([janSemesterDag] : List DayRecord) ≠ [janArbetsdag] := by
  refine ⟨by decide, by decide, by decide⟩

/-- C6 amended: `_apply_month_edits` performs no validation of the edited
dates. A non-empty edited DataFrame is merged positionally into the target
month's rows whether or not its dates lie in `(year, month)`; the merge
fails (raising, with no mutation reaching the scenario) exactly when the
batch's row count differs from the number of records in the target
sub-range. -/
theorem applyMonthEdits_fails_iff_count_mismatch (df : List DayRecord)
    (year month : Nat) (rows : List DayRecord) (hne : rows ≠ []) :
    applyMonthEdits df year month (.dataFrame rows) = none ↔
      (df.filter (inMonth year month)).length ≠ rows.length := by
  have hempty : rows.isEmpty = false := by
    cases rows with
    | nil => exact absurd rfl hne
    | cons a l => rfl
  have hlen : (rows.map normalizeFlags).length = rows.length := by
    simp
  simp only [applyMonthEdits, buildMonthDf, hempty, Bool.false_eq_true, if_false,
    writeBack, hlen]
  by_cases hc : (df.filter (inMonth year month)).length = rows.length
  · simp [hc]
  · simp [hc]

/-- C6 witness: a one-row batch merged into a month holding no records
fails (count mismatch), which is the only failure mode. -/
theorem applyMonthEdits_fails_iff_count_mismatch_witness :
    applyMonthEdits [febArbetsdag] 2026 1 (.dataFrame [janSemesterDag]) = none :=
  (applyMonthEdits_fails_iff_count_mismatch [febArbetsdag] 2026 1 [janSemesterDag]
    (by decide)).mpr (by decide)

set_option maxRecDepth 20000 in
/-- C3 counterexample: Good Friday 2026-04-03 falls on a Friday in the even
ISO week 14 and is the record `get_initial_data` generates at index 92 for
a table naming it. With the overlay disabled its reported kind is
`"Ledig (Helg/Röd)"`, not Workday; with the overlay enabled the stored
`Typ` field itself is overwritten to `"Spärrad (Jobb)"`. -/
theorem overlay_counterexample_langfredagen :
    Ymd.weekday ⟨2026, 4, 3⟩ = 4 ∧ Ymd.isoWeek ⟨2026, 4, 3⟩ % 2 = 0 ∧
      (get_initial_data seHolidays2026)[92]? = some langfredagen2026 ∧
      overlayStep false [langfredagen2026] = [langfredagen2026] ∧
      langfredagen2026.typ ≠ "Arbetsdag" ∧
      (overlayStep true [langfredagen2026])[0]? =
        some { langfredagen2026 with typ := "Spärrad (Jobb)" } := by
  refine ⟨by decide, by decide, by decide, by decide, by decide, by decide⟩

/-- C3 amended: for any record whose date is a Friday in an even ISO week,
the enabled overlay rewrites the record's single stored `Typ` field to
`"Spärrad (Jobb)"` (RestrictedWork) regardless of its previous value —
the code keeps no separate base type, so the reclassification lands in the
stored record — while the disabled overlay leaves the whole DataFrame
unchanged (thus reporting Workday only for records already stored as
Workday). -/
theorem overlay_even_friday (df : List DayRecord) (i : Nat) (hi : i < df.length)
    (h4 : df[i].datum.weekday = 4) (he : df[i].datum.isoWeek % 2 = 0) :
    (overlayStep true df)[i]? = some { df[i] with typ := "Spärrad (Jobb)" } ∧
      overlayStep false df = df := by
  constructor
  · simp only [overlayStep, if_true, List.getElem?_map,
      List.getElem?_eq_getElem hi, Option.map_some]
    simp [h4, he]
  · rfl

/-- C3 witness: the enabled overlay reclassifies the workday Friday
2026-01-09 (even ISO week 2) and the disabled overlay leaves it alone. -/
theorem overlay_even_friday_witness :
    (overlayStep true [fredag9Jan])[0]? =
        some { fredag9Jan with typ := "Spärrad (Jobb)" } ∧
      overlayStep false [fredag9Jan] = [fredag9Jan] :=
  overlay_even_friday [fredag9Jan] 0 (by decide) (by decide) (by decide)

/-- C4 counterexample: Christmas Day 2026-12-25 is a `RestrictedHoliday`
record on a Friday in the even ISO week 52; the enabled overlay changes its
effective kind to `"Spärrad (Jobb)"` even though its base type is not
Workday, contradicting the claim that such records keep an effective kind
equal to their base type. -/
theorem overlay_counterexample_juldagen :
    juldagen2026.typ = "Ledig (Helg/Röd)" ∧
      Ymd.weekday ⟨2026, 12, 25⟩ = 4 ∧ Ymd.isoWeek ⟨2026, 12, 25⟩ % 2 = 0 ∧
      (overlayStep true [juldagen2026])[0]? =
        some { juldagen2026 with typ := "Spärrad (Jobb)" } ∧
      ({ juldagen2026 with typ := "Spärrad (Jobb)" } : DayRecord) ≠ juldagen2026 := by
  refine ⟨by decide, by decide, by decide, by decide, by decide⟩

/-- C4 amended: the enabled overlay sets the effective kind to
`"Spärrad (Jobb)"` (RestrictedWork) exactly for the records whose date is
a Friday with an even ISO week number — irrespective of the record's
stored type, so even-week holiday Fridays are reclassified too — and every
other record (and every record under a disabled overlay) keeps its stored
type. -/
theorem overlay_exact_reclassification (b : Bool) (df : List DayRecord)
    (i : Nat) (hi : i < df.length) :
    (overlayStep b df)[i]? =
      some (if b = true ∧ df[i].datum.weekday = 4 ∧ df[i].datum.isoWeek % 2 = 0
        then { df[i] with typ := "Spärrad (Jobb)" } else df[i]) := by
  cases b with
  | false =>
    simp [overlayStep, List.getElem?_eq_getElem hi]
  | true =>
    simp only [overlayStep, if_true, List.getElem?_map,
      List.getElem?_eq_getElem hi, Option.map_some]
    by_cases h4 : df[i].datum.weekday = 4 <;>
      by_cases he : df[i].datum.isoWeek % 2 = 0 <;>
      simp [h4, he]

/-- C4 witness: the overlay leaves a Saturday record unchanged even when
enabled. -/
theorem overlay_exact_reclassification_witness :
    (overlayStep true [lordag3Jan])[0]? = some lordag3Jan :=
  (overlay_exact_reclassification true [lordag3Jan] 0 (by decide)).trans (by decide)

theorem spec_full_mask_eq_full_mask : spec_full_mask = full_mask := by
  funext r
  by_cases h1 : r.typ = "Arbetsdag"
  · simp [spec_full_mask, full_mask, effKindOfTyp, h1]
  · by_cases h2 : r.typ = "Spärrad (Jobb)"
    · simp [spec_full_mask, full_mask, effKindOfTyp, h1, h2]
    · by_cases h3 : r.typ = "Ledig (Helg/Röd)"
      · simp [spec_full_mask, full_mask, effKindOfTyp, h1, h2, h3]
      · simp [spec_full_mask, full_mask, effKindOfTyp, h1, h2, h3]

theorem spec_half_mask_eq_half_mask : spec_half_mask = half_mask := by
  funext r
  by_cases h1 : r.typ = "Arbetsdag"
  · simp [spec_half_mask, half_mask, effKindOfTyp, h1]
  · by_cases h2 : r.typ = "Spärrad (Jobb)"
    · simp [spec_half_mask, half_mask, effKindOfTyp, h1, h2]
    · by_cases h3 : r.typ = "Ledig (Helg/Röd)"
      · simp [spec_half_mask, half_mask, effKindOfTyp, h1, h2, h3]
      · simp [spec_half_mask, half_mask, effKindOfTyp, h1, h2, h3]

/-- C2: for every scenario DataFrame and budget, the statistics block
computes `count` exactly as the spec's consumed formula — full-vacation
days with effective kind Workday/RestrictedWork plus one half for each
half-day on such days — and `rem` as the budget minus that; on the §8
example (one full-vacation workday, two half-day workdays, budget 108)
this gives consumed 2.0 and remaining 106.0. -/
theorem budget_summary_spec :
    (∀ (df : List DayRecord) (budget_days : ℚ),
        budgetCount df = specConsumed df ∧
          budgetRemaining df budget_days = budget_days - specConsumed df) ∧
      budgetCount budgetExampleDf = 2 ∧
      budgetRemaining budgetExampleDf 108 = 106 := by
  have h1 : List.countP full_mask budgetExampleDf = 1 := rfl
  have h2 : List.countP half_mask budgetExampleDf = 2 := rfl
  refine ⟨fun df budget_days => ?_, ?_, ?_⟩
  · constructor
    · simp [budgetCount, specConsumed, spec_full_mask_eq_full_mask,
        spec_half_mask_eq_half_mask]
    · simp [budgetRemaining, budgetCount, specConsumed, spec_full_mask_eq_full_mask,
        spec_half_mask_eq_half_mask]
  · rw [budgetCount, h1, h2]
    norm_num
  · rw [budgetRemaining, budgetCount, h1, h2]
    norm_num

/-- C7 counterexample: the claim says deserialization fails with
`SchemaError` exactly on a non-object blob or a day record missing its
date field. Instead a non-object blob is silently coerced into an empty
store with the default budget, and a legacy blob whose day record lacks a
date field is accepted wholesale. -/
theorem extract_drive_payload_counterexample :
    extract_drive_payload (.str "inte ett objekt") =
        some (.obj [], (TOTAL_BUDGET : Int)) ∧
      extract_drive_payload (.obj [("Utkast 1", .arr [.obj [("Vecka", .num 1)]])]) =
        some (.obj [("Utkast 1", .arr [.obj [("Vecka", .num 1)]])], (TOTAL_BUDGET : Int)) := by
  exact ⟨rfl, rfl⟩

/-- C7 amended: deserialization never fails on well-formed legacy (flat)
input, but it raises no `SchemaError` either: a blob that is not an object
is silently coerced into an empty scenarios store with the default budget,
and day records are never inspected for a date field (any object without a
`scenarios` key is returned whole as the legacy shape). -/
theorem extract_drive_payload_total_on_legacy :
    (∀ blob : JVal, (∀ fs, blob ≠ .obj fs) →
        extract_drive_payload blob = some (.obj [], (TOTAL_BUDGET : Int))) ∧
      ∀ fs : List (String × JVal), containsKey fs "scenarios" = false →
        extract_drive_payload (.obj fs) = some (.obj fs, (TOTAL_BUDGET : Int)) := by
  constructor
  · intro blob hne
    cases blob with
    | obj fs => exact absurd rfl (hne fs)
    | null => rfl
    | bool b => rfl
    | num n => rfl
    | str s => rfl
    | arr xs => rfl
  · intro fs h
    simp [extract_drive_payload, h]

/-- C7 witness: a null blob is coerced to the empty store; a flat legacy
blob with a date-less day record is accepted whole. -/
theorem extract_drive_payload_total_on_legacy_witness :
    extract_drive_payload .null = some (.obj [], (TOTAL_BUDGET : Int)) ∧
      extract_drive_payload (.obj [("Plan B", .arr [.obj []])]) =
        some (.obj [("Plan B", .arr [.obj []])], (TOTAL_BUDGET : Int)) :=
  ⟨extract_drive_payload_total_on_legacy.1 .null (fun _ h => JVal.noConfusion h),
    extract_drive_payload_total_on_legacy.2 [("Plan B", .arr [.obj []])] rfl⟩

/-- C8: every legacy flat blob — a top-level object with no `scenarios`
key — deserializes to the whole blob as the scenarios mapping together
with the system default budget, and that default is 108. -/
theorem legacy_flat_migration (fs : List (String × JVal))
    (h : containsKey fs "scenarios" = false) :
    extract_drive_payload (.obj fs) = some (.obj fs, (TOTAL_BUDGET : Int)) ∧
      (TOTAL_BUDGET : Int) = 108 := by
  refine ⟨?_, rfl⟩
  simp [extract_drive_payload, h]

/-- C8 witness: the spec's migration example, a flat blob holding one
scenario list. -/
theorem legacy_flat_migration_witness :
    extract_drive_payload
        (.obj [("Draft 1", .arr [.obj [("Datum", .str "2026-01-01")]])]) =
      some (.obj [("Draft 1", .arr [.obj [("Datum", .str "2026-01-01")]])],
        (TOTAL_BUDGET : Int)) :=
  (legacy_flat_migration [("Draft 1", .arr [.obj [("Datum", .str "2026-01-01")]])]
    rfl).1

/-- C9: every record `get_initial_data` generates is classified
`"Ledig (Helg/Röd)"` (RestrictedHoliday) exactly when its date is in the
holiday table or falls on Saturday/Sunday and `"Arbetsdag"` (Workday)
otherwise; the label equals the table entry on exact matches and is empty
otherwise (in particular weekend-only days get none); the stored week is
the ISO week; and all four user-mark flags start false. -/
theorem get_initial_data_classification (tbl : HolidayTable) (r : DayRecord)
    (h : r ∈ get_initial_data tbl) :
    (r.typ = "Ledig (Helg/Röd)" ↔
        ((List.lookup r.datum tbl).isSome = true ∨ 5 ≤ r.datum.weekday)) ∧
      (r.typ = "Arbetsdag" ↔
        ¬((List.lookup r.datum tbl).isSome = true ∨ 5 ≤ r.datum.weekday)) ∧
      r.beskrivning = (List.lookup r.datum tbl).getD "" ∧
      r.vecka = r.datum.isoWeek ∧
      r.semester = false ∧ r.halvdag = false ∧ r.extraLedig = false ∧
      r.sjuk = false := by
  rcases List.mem_map.1 h with ⟨d, _, rfl⟩
  by_cases hh : is_holiday tbl d = true
  · have hprop : (List.lookup d tbl).isSome = true ∨ 5 ≤ d.weekday := by
      simp only [is_holiday, Bool.or_eq_true, decide_eq_true_eq] at hh
      exact hh
    refine ⟨?_, ?_, ?_, rfl, rfl, rfl, rfl, rfl⟩
    · show (if is_holiday tbl d = true then "Ledig (Helg/Röd)" else "Arbetsdag") =
          "Ledig (Helg/Röd)" ↔ _
      rw [if_pos hh]
      exact iff_of_true rfl hprop
    · show (if is_holiday tbl d = true then "Ledig (Helg/Röd)" else "Arbetsdag") =
          "Arbetsdag" ↔ _
      rw [if_pos hh]
      exact iff_of_false (by decide) (not_not_intro hprop)
    · show (if is_holiday tbl d = true then (List.lookup d tbl).getD "" else "") =
          (List.lookup d tbl).getD ""
      rw [if_pos hh]
  · have hprop : ¬((List.lookup d tbl).isSome = true ∨ 5 ≤ d.weekday) := by
      simp only [is_holiday, Bool.or_eq_true, decide_eq_true_eq] at hh
      exact hh
    have hnone : List.lookup d tbl = none := by
      rcases hl : List.lookup d tbl with _ | v
      · rfl
      · exact absurd (Or.inl (by simp [hl])) hprop
    refine ⟨?_, ?_, ?_, rfl, rfl, rfl, rfl, rfl⟩
    · show (if is_holiday tbl d = true then "Ledig (Helg/Röd)" else "Arbetsdag") =
          "Ledig (Helg/Röd)" ↔ _
      rw [if_neg hh]
      exact iff_of_false (by decide) hprop
    · show (if is_holiday tbl d = true then "Ledig (Helg/Röd)" else "Arbetsdag") =
          "Arbetsdag" ↔ _
      rw [if_neg hh]
      exact iff_of_true rfl hprop
    · show (if is_holiday tbl d = true then (List.lookup d tbl).getD "" else "") =
          (List.lookup d tbl).getD ""
      rw [if_neg hh, hnone]
      rfl

/-- C9 witness: the §8 scenario's record for 2026-01-01 (Nyårsdagen). -/
theorem get_initial_data_classification_witness :
    nyarsdagen2026.beskrivning =
        (List.lookup nyarsdagen2026.datum nyarsTable).getD "" ∧
      nyarsdagen2026.semester = false :=
  ⟨(get_initial_data_classification nyarsTable nyarsdagen2026 (by decide)).2.2.1,
    (get_initial_data_classification nyarsTable nyarsdagen2026
      (by decide)).2.2.2.2.1⟩

theorem lookup_setScenario_self (l : List (String × List DayRecord))
    (name : String) (recs : List DayRecord) :
    List.lookup name (setScenario l name recs) = some recs := by
  induction l with
  | nil => simp [setScenario, List.lookup_cons]
  | cons kv rest ih =>
    rcases kv with ⟨k, v⟩
    by_cases hk : k = name
    · subst hk
      simp [setScenario, List.lookup_cons]
    · simp [setScenario, hk, List.lookup_cons,
        beq_eq_false_iff_ne.mpr (Ne.symm hk), ih]

theorem lookup_setScenario_ne (l : List (String × List DayRecord))
    (name other : String) (recs : List DayRecord) (h : other ≠ name) :
    List.lookup other (setScenario l name recs) = List.lookup other l := by
  induction l with
  | nil => simp [setScenario, List.lookup_cons, beq_eq_false_iff_ne.mpr h]
  | cons kv rest ih =>
    rcases kv with ⟨k, v⟩
    by_cases hk : k = name
    · subst hk
      simp [setScenario, List.lookup_cons, beq_eq_false_iff_ne.mpr h]
    · simp [setScenario, hk, List.lookup_cons, ih]

/-- C10: cloning a scenario copies the current scenario's records
record-by-record, so the clone starts equal to its source, and any
subsequent month-edit merge — which writes only to the store's current
scenario slot — leaves every other named scenario's record list
unchanged (the clone and the original share no state). -/
theorem create_new_scenario_independence :
    (∀ (s : Store) (name : String) (s1 : Store),
        create_new_scenario name s = some s1 →
          List.lookup name s1.scenarios =
            List.lookup s.current_scenario s.scenarios) ∧
      ∀ (t : Store) (year month : Nat) (ed : EditorState) (t2 : Store),
        storeApplyMonthEdits t year month ed = some t2 →
          ∀ other : String, other ≠ t.current_scenario →
            List.lookup other t2.scenarios = List.lookup other t.scenarios := by
  constructor
  · intro s name s1 h
    simp only [create_new_scenario] at h
    cases hcur : List.lookup s.current_scenario s.scenarios with
    | none => rw [hcur] at h; exact absurd h (by simp)
    | some recs =>
      rw [hcur] at h
      simp only [Option.some.injEq] at h
      subst h
      simp [lookup_setScenario_self, hcur, List.map_id']
  · intro t year month ed t2 h other hother
    simp only [storeApplyMonthEdits] at h
    cases hcur : List.lookup t.current_scenario t.scenarios with
    | none => rw [hcur] at h; exact absurd h (by simp)
    | some df =>
      rw [hcur] at h
      dsimp only at h
      cases happ : applyMonthEdits df year month ed with
      | none => rw [happ] at h; exact absurd h (by simp)
      | some df2 =>
        rw [happ] at h
        simp only [Option.some.injEq] at h
        subst h
        exact lookup_setScenario_ne t.scenarios t.current_scenario other df2 hother

/-- C10 witness: cloning "Utkast 1" as "Plan B" and then editing the
current scenario ("Plan B") leaves "Utkast 1" untouched. -/
theorem create_new_scenario_independence_witness :
    List.lookup "Plan B"
        (Store.scenarios ⟨[("Utkast 1", [janSemesterDag]),
          ("Plan B", [janSemesterDag])], "Plan B"⟩) =
      List.lookup "Utkast 1" storeUtkast.scenarios ∧
    List.lookup "Utkast 1"
        (Store.scenarios ⟨[("Utkast 1", [janSemesterDag]),
          ("Plan B",
            [⟨⟨2026, 1, 2⟩, 1, "Arbetsdag", "", false, false, false, true⟩])],
          "Plan B"⟩) =
      List.lookup "Utkast 1"
        (Store.scenarios ⟨[("Utkast 1", [janSemesterDag]),
          ("Plan B", [janSemesterDag])], "Plan B"⟩) :=
  ⟨create_new_scenario_independence.1 storeUtkast "Plan B"
      ⟨[("Utkast 1", [janSemesterDag]), ("Plan B", [janSemesterDag])], "Plan B"⟩
      (by decide),
    create_new_scenario_independence.2
      ⟨[("Utkast 1", [janSemesterDag]), ("Plan B", [janSemesterDag])], "Plan B"⟩
      2026 1 (.editorDict [(0, { sjuk := some true })] [] [])
      ⟨[("Utkast 1", [janSemesterDag]),
        ("Plan B",
          [⟨⟨2026, 1, 2⟩, 1, "Arbetsdag", "", false, false, false, true⟩])],
        "Plan B"⟩
      (by decide) "Utkast 1" (by decide)⟩
